import Mathlib

/-
Verification of the movie-resource contract of the cinema backend.

The repository ships the acceptance tests (cinema/tests/test_movie_api.py)
and the URL routing table (cinema/urls.py); the handler, model and
serializer modules themselves are not part of the excerpt.  Every
operation below is therefore modelled from the specification's
description of the movie resource handler (spec sections 3, 4.1, 6 and 7)
and checked against the properties the tests and the spec state.
-/

namespace Cinema

/-- Modelled from the spec: the Genre record of cinema/models.py (not in
the excerpt): an id and a name. -/
structure Genre where
  id : Nat
  name : String
deriving DecidableEq, Repr

/-- Modelled from the spec: the Actor record of cinema/models.py (not in
the excerpt): an id, a first name and a last name. -/
structure Actor where
  id : Nat
  first_name : String
  last_name : String
deriving DecidableEq, Repr

/-- Modelled from the spec: the derived field
`full_name = first_name + " " + last_name`. -/
def Actor.full_name (a : Actor) : String :=
  a.first_name ++ " " ++ a.last_name

/-- Modelled from the spec: the uploaded file handed to the image upload
action.  Whether the payload decodes as a real image is decided by the
external image library (PIL in the tests), modelled as the `decodable`
attribute of the file. -/
structure ImageFile where
  name : String
  decodable : Bool
deriving DecidableEq, Repr

/-- Modelled from the spec: the Movie record of cinema/models.py (not in
the excerpt): id, title, description, duration in minutes, attached
genre ids, attached actor ids, and an optional stored-image reference. -/
structure Movie where
  id : Nat
  title : String
  description : String
  duration : Int
  genres : List Nat
  actors : List Nat
  image : Option String
deriving DecidableEq, Repr

/-- Modelled from the spec: the persistent record store backing the
handler: genre, actor and movie tables, the id the next created movie
receives, and the references of the files the storage backend holds. -/
structure DB where
  genres : List Genre
  actors : List Actor
  movies : List Movie
  nextMovieId : Nat
  files : List String
deriving DecidableEq, Repr

/-- Modelled from the spec: the caller's authentication state: anonymous,
authenticated without admin privilege, or admin. -/
inductive Caller
  | anon
  | user
  | admin
deriving DecidableEq, Repr

/-- Modelled from the spec: the error taxonomy of section 7. -/
inductive ApiError
  | unauthorized
  | forbidden
  | notFound
  | badRequest
deriving DecidableEq, Repr

/-- Modelled from the spec: the HTTP status code each error surfaces as. -/
def ApiError.statusCode : ApiError → Nat
  | ApiError.unauthorized => 401
  | ApiError.forbidden => 403
  | ApiError.notFound => 404
  | ApiError.badRequest => 400

/-- Status of a response: the given success code on `ok`, the error's
code otherwise. -/
def statusOf {α : Type} (okCode : Nat) : Except ApiError α → Nat
  | Except.ok _ => okCode
  | Except.error e => e.statusCode

/-- Whether the character list `hay` begins with the list `needle`. -/
def leadsWith : List Char → List Char → Bool
  | _, [] => true
  | [], _ :: _ => false
  | c :: cs, d :: ds => c == d && leadsWith cs ds

/-- Whether `needle` occurs contiguously inside `hay`. -/
def hasSub : List Char → List Char → Bool
  | [], needle => needle.isEmpty
  | c :: rest, needle => leadsWith (c :: rest) needle || hasSub rest needle

/-- Lower-case an ASCII letter, leave anything else unchanged. -/
def lowChar (c : Char) : Char :=
  if 65 ≤ c.toNat ∧ c.toNat ≤ 90 then Char.ofNat (c.toNat + 32) else c

/-- Case-insensitive substring test, as the `title` filter performs it. -/
def containsCI (hay needle : String) : Bool :=
  hasSub (hay.data.map lowChar) (needle.data.map lowChar)

/-- Value of an ASCII digit. -/
def digitVal (c : Char) : Option Nat :=
  if 48 ≤ c.toNat ∧ c.toNat ≤ 57 then Option.some (c.toNat - 48) else Option.none

/-- Decimal reading of a digit sequence, `Option.none` on any non-digit. -/
def natOfCharsAux : List Char → Nat → Option Nat
  | [], acc => Option.some acc
  | c :: rest, acc =>
    match digitVal c with
    | Option.some d => natOfCharsAux rest (acc * 10 + d)
    | Option.none => Option.none

/-- Decimal number denoted by a character list, `Option.none` when empty
or not all digits. -/
def natOfChars (cs : List Char) : Option Nat :=
  match cs with
  | [] => Option.none
  | _ :: _ => natOfCharsAux cs 0

/-- Split a character list at commas. -/
def splitComma : List Char → List (List Char)
  | [] => [[]]
  | c :: rest =>
    if c == ',' then [] :: splitComma rest
    else
      match splitComma rest with
      | [] => [[c]]
      | seg :: segs => (c :: seg) :: segs

/-- Modelled from the spec: parsing a comma-separated id list query
parameter; segments that are not numbers are dropped. -/
def parseIds (s : String) : List Nat :=
  (splitComma s.data).filterMap natOfChars

/-- Modelled from the spec: the optional query parameters of the list
endpoint. -/
structure Filters where
  title : Option String
  genres : Option String
  actors : Option String
deriving DecidableEq, Repr

/-- The empty query string: no filter applied. -/
def noFilters : Filters :=
  { title := Option.none, genres := Option.none, actors := Option.none }

/-- Modelled from the spec: the `title` filter keeps movies whose title
contains the parameter as a case-insensitive substring; absent parameter
keeps everything. -/
def matchTitle (p : Option String) (m : Movie) : Bool :=
  match p with
  | Option.none => true
  | Option.some t => containsCI m.title t

/-- Modelled from the spec: a comma-separated id parameter matches a
record when any parsed id is among the attached ids (match-any); absent
parameter keeps everything. -/
def matchIds (p : Option String) (attached : List Nat) : Bool :=
  match p with
  | Option.none => true
  | Option.some s => (parseIds s).any (fun i => attached.contains i)

/-- Modelled from the spec: conjunction of the three list filters. -/
def matchesFilters (f : Filters) (m : Movie) : Bool :=
  matchTitle f.title m && matchIds f.genres m.genres && matchIds f.actors m.actors

/-- Nested genre object of a response: id and name. -/
structure GenreOut where
  id : Nat
  name : String
deriving DecidableEq, Repr

/-- Nested actor object of a response: id and derived full name. -/
structure ActorOut where
  id : Nat
  full_name : String
deriving DecidableEq, Repr

/-- Modelled from the spec: a movie summary as the list endpoint returns
it: id, title, duration, nested genres, nested actors, image reference
or empty. -/
structure MovieSummary where
  id : Nat
  title : String
  duration : Int
  genres : List GenreOut
  actors : List ActorOut
  image : Option String
deriving DecidableEq, Repr

/-- Modelled from the spec: the full movie detail the retrieve endpoint
returns. -/
structure MovieDetail where
  id : Nat
  title : String
  description : String
  duration : Int
  genres : List GenreOut
  actors : List ActorOut
  image : Option String
deriving DecidableEq, Repr

/-- Look a genre up by id in the store. -/
def lookupGenre (db : DB) (gid : Nat) : Option Genre :=
  db.genres.find? (fun g => g.id == gid)

/-- Look an actor up by id in the store. -/
def lookupActor (db : DB) (aid : Nat) : Option Actor :=
  db.actors.find? (fun a => a.id == aid)

/-- Look a movie up by id in the store. -/
def lookupMovie (db : DB) (mid : Nat) : Option Movie :=
  db.movies.find? (fun m => m.id == mid)

/-- Serialize the attached genre ids as nested objects carrying the
genre's name. -/
def serializeGenres (db : DB) (ids : List Nat) : List GenreOut :=
  (ids.filterMap (lookupGenre db)).map (fun g => { id := g.id, name := g.name })

/-- Serialize the attached actor ids as nested objects carrying the
derived full name. -/
def serializeActors (db : DB) (ids : List Nat) : List ActorOut :=
  (ids.filterMap (lookupActor db)).map (fun a => { id := a.id, full_name := a.full_name })

/-- Summary representation of one movie. -/
def summarize (db : DB) (m : Movie) : MovieSummary :=
  { id := m.id, title := m.title, duration := m.duration,
    genres := serializeGenres db m.genres, actors := serializeActors db m.actors,
    image := m.image }

/-- Detail representation of one movie. -/
def detailOf (db : DB) (m : Movie) : MovieDetail :=
  { id := m.id, title := m.title, description := m.description,
    duration := m.duration, genres := serializeGenres db m.genres,
    actors := serializeActors db m.actors, image := m.image }

/-- Modelled from the spec: `GET /movies/` of cinema/views.py (not in the
excerpt).  Requires authentication; applies the optional filters; returns
the summaries of the matching movies. -/
def listMovies (c : Caller) (db : DB) (f : Filters) : Except ApiError (List MovieSummary) :=
  match c with
  | Caller.anon => Except.error ApiError.unauthorized
  | _ => Except.ok ((db.movies.filter (matchesFilters f)).map (summarize db))

/-- Modelled from the spec: `GET /movies/id/` of cinema/views.py (not in
the excerpt).  Requires authentication; NotFound when no movie has the
id; the full detail otherwise. -/
def retrieveMovie (c : Caller) (db : DB) (mid : Nat) : Except ApiError MovieDetail :=
  match c with
  | Caller.anon => Except.error ApiError.unauthorized
  | _ =>
    match lookupMovie db mid with
    | Option.none => Except.error ApiError.notFound
    | Option.some m => Except.ok (detailOf db m)

/-- Modelled from the spec: the create payload: title, description and
duration are required fields, genre and actor id lists are optional, and
an `image` part may be present but is ignored by the create action. -/
structure CreatePayload where
  title : Option String
  description : Option String
  duration : Option Int
  genres : List Nat
  actors : List Nat
  image : Option ImageFile
deriving DecidableEq, Repr

/-- Modelled from the spec: `POST /movies/` of cinema/views.py (not in
the excerpt).  Unauthorized for anonymous callers, Forbidden for
non-admin callers, BadRequest on missing or invalid required fields or
unknown genre or actor ids; otherwise stores one new movie with the
payload's fields, ignoring any `image` part, and answers with its
detail.  Returns the response together with the resulting store. -/
def createMovie (c : Caller) (db : DB) (p : CreatePayload) :
    Except ApiError MovieDetail × DB :=
  match c with
  | Caller.anon => (Except.error ApiError.unauthorized, db)
  | Caller.user => (Except.error ApiError.forbidden, db)
  | Caller.admin =>
    match p.title, p.description, p.duration with
    | Option.some t, Option.some d, Option.some dur =>
      if decide (0 < dur) && p.genres.all (fun g => (lookupGenre db g).isSome)
          && p.actors.all (fun a => (lookupActor db a).isSome) then
        let m : Movie :=
          { id := db.nextMovieId, title := t, description := d, duration := dur,
            genres := p.genres, actors := p.actors, image := Option.none }
        (Except.ok (detailOf db m),
         { db with movies := db.movies ++ [m], nextMovieId := db.nextMovieId + 1 })
      else (Except.error ApiError.badRequest, db)
    | _, _, _ => (Except.error ApiError.badRequest, db)

/-- Reference under which the storage backend files an uploaded image. -/
def storedRef (mid : Nat) (f : ImageFile) : String :=
  "uploads/movies/" ++ toString mid ++ "/" ++ f.name

/-- Attach an image reference to the movie with the given id. -/
def setImage (movies : List Movie) (mid : Nat) (ref : String) : List Movie :=
  movies.map (fun m => if m.id == mid then { m with image := Option.some ref } else m)

/-- Modelled from the spec: `POST /movies/id/upload-image/` of
cinema/views.py (not in the excerpt).  Unauthorized for anonymous
callers, Forbidden for non-admin callers, NotFound for an unknown id,
BadRequest when the payload does not decode as a real image; otherwise
stores the file, associates it with the movie and answers with the
updated detail.  Returns the response together with the resulting
store. -/
def uploadImage (c : Caller) (db : DB) (mid : Nat) (f : ImageFile) :
    Except ApiError MovieDetail × DB :=
  match c with
  | Caller.anon => (Except.error ApiError.unauthorized, db)
  | Caller.user => (Except.error ApiError.forbidden, db)
  | Caller.admin =>
    match lookupMovie db mid with
    | Option.none => (Except.error ApiError.notFound, db)
    | Option.some m =>
      if f.decodable then
        let r := storedRef mid f
        let db2 : DB :=
          { db with movies := setImage db.movies mid r, files := db.files ++ [r] }
        (Except.ok (detailOf db2 { m with image := Option.some r }), db2)
      else (Except.error ApiError.badRequest, db)

/-- Modelled from the spec: a create payload is well formed when title,
description and duration are present, the duration is positive, and
every listed genre and actor id exists. -/
def validPayload (db : DB) (p : CreatePayload) : Bool :=
  p.title.isSome && p.description.isSome &&
  (match p.duration with
   | Option.some d => decide (0 < d)
   | Option.none => false) &&
  p.genres.all (fun g => (lookupGenre db g).isSome) &&
  p.actors.all (fun a => (lookupActor db a).isSome)

/-- Modelled from the spec: the model invariants of section 3: attached
genre and actor ids exist, the image is absent or a stored file
reference, and the duration is positive. -/
def movieValid (db : DB) (m : Movie) : Bool :=
  m.genres.all (fun g => (lookupGenre db g).isSome) &&
  m.actors.all (fun a => (lookupActor db a).isSome) &&
  decide (0 < m.duration) &&
  (match m.image with
   | Option.none => true
   | Option.some r => db.files.contains r)

/-- Test fixture: two genres, two actors, two movies each with one
genre and one actor attached, as in the filter tests. -/
def dbFilters : DB :=
  { genres := [{ id := 1, name := "Action" }, { id := 2, name := "Comedy" }],
    actors := [{ id := 1, first_name := "Actor", last_name := "One" },
               { id := 2, first_name := "Actor", last_name := "Two" }],
    movies := [{ id := 1, title := "Movie 1", description := "Sample description",
                 duration := 90, genres := [1], actors := [1], image := Option.none },
               { id := 2, title := "Movie 2", description := "Sample description",
                 duration := 90, genres := [2], actors := [2], image := Option.none }],
    nextMovieId := 3, files := [] }

/-- Test fixture: the two movies of the title-filter test. -/
def dbTitles : DB :=
  { genres := [], actors := [],
    movies := [{ id := 1, title := "The Matrix", description := "Sample description",
                 duration := 90, genres := [], actors := [], image := Option.none },
               { id := 2, title := "Toy Story", description := "Sample description",
                 duration := 90, genres := [], actors := [], image := Option.none }],
    nextMovieId := 3, files := [] }

/-- Test fixture: the Horror genre, one actor, and the Matrix movie
with both attached, as in the retrieve test. -/
def dbDetail : DB :=
  { genres := [{ id := 1, name := "Horror" }],
    actors := [{ id := 1, first_name := "Keanu", last_name := "Reeves" }],
    movies := [{ id := 1, title := "Matrix", description := "Sample description",
                 duration := 90, genres := [1], actors := [1], image := Option.none }],
    nextMovieId := 2, files := [] }

/-- Test fixture: two genres and two actors with an empty movie table,
as in the admin create test. -/
def dbCreate : DB :=
  { genres := [{ id := 1, name := "Sci-Fi" }, { id := 2, name := "Drama" }],
    actors := [{ id := 1, first_name := "Actor", last_name := "One" },
               { id := 2, first_name := "Actor", last_name := "Two" }],
    movies := [], nextMovieId := 1, files := [] }

/-- Test fixture: the plain sample movie of the upload tests. -/
def sampleMovie : Movie :=
  { id := 1, title := "Sample movie", description := "Sample description",
    duration := 90, genres := [], actors := [], image := Option.none }

/-- Test fixture: a store holding only the sample movie. -/
def dbUpload : DB :=
  { genres := [], actors := [], movies := [sampleMovie], nextMovieId := 2, files := [] }

/-- A valid (decodable) JPEG upload. -/
def sampleJpeg : ImageFile :=
  { name := "sample.jpg", decodable := true }

/-- Test fixture: the upload store after the sample JPEG lands on the
sample movie. -/
def dbUploaded : DB :=
  { dbUpload with
      movies := setImage dbUpload.movies 1 (storedRef 1 sampleJpeg),
      files := dbUpload.files ++ [storedRef 1 sampleJpeg] }

/-- Test fixture: the movie the ignored-image create test stores. -/
def createdMovie : Movie :=
  { id := 1, title := "Title", description := "Description",
    duration := 90, genres := [1], actors := [1], image := Option.none }

/-- Test fixture: the create store after the ignored-image create. -/
def dbAfterCreate : DB :=
  { dbCreate with movies := dbCreate.movies ++ [createdMovie],
                  nextMovieId := dbCreate.nextMovieId + 1 }

/-- Test fixture: the reference of the image uploaded after the
ignored-image create. -/
def uploadRef : String :=
  storedRef dbCreate.nextMovieId sampleJpeg

/-- Test fixture: the store after the dedicated upload that follows the
ignored-image create. -/
def dbAfterUpload : DB :=
  { dbAfterCreate with
      movies := setImage dbAfterCreate.movies dbCreate.nextMovieId uploadRef,
      files := dbAfterCreate.files ++ [uploadRef] }

/-- Test fixture: a movie holding only the required fields. -/
def bareMovie : Movie :=
  { id := 3, title := "Sample movie", description := "Sample description",
    duration := 90, genres := [], actors := [], image := Option.none }

/-- Test fixture: the movie of the retrieve test. -/
def matrixMovie : Movie :=
  { id := 1, title := "Matrix", description := "Sample description",
    duration := 90, genres := [1], actors := [1], image := Option.none }

/-- Any authenticated caller gets the filtered summaries from the list
endpoint. -/
theorem listMovies_auth (c : Caller) (db : DB) (f : Filters) (hc : c ≠ Caller.anon) :
    listMovies c db f = Except.ok ((db.movies.filter (matchesFilters f)).map (summarize db)) := by
  cases c with
  | anon => exact absurd rfl hc
  | user => rfl
  | admin => rfl

/-- A hit in the first part of an appended list is a hit in the whole. -/
theorem find?_append_of_some {α : Type} {p : α → Bool} {l1 : List α} {a : α} (l2 : List α)
    (h : l1.find? p = Option.some a) : (l1 ++ l2).find? p = Option.some a := by
  rw [List.find?_append, h]
  rfl

/-- A miss in the first part of an appended list defers to the second. -/
theorem find?_append_of_none {α : Type} {p : α → Bool} {l1 : List α} (l2 : List α)
    (h : l1.find? p = Option.none) : (l1 ++ l2).find? p = l2.find? p := by
  rw [List.find?_append, h]
  rfl

/-- Looking a movie up after attaching an image reference gives the
looked-up movie with the reference attached. -/
theorem find?_setImage (l : List Movie) (mid : Nat) (r : String) :
    (setImage l mid r).find? (fun m => m.id == mid) =
      ((l.find? (fun m => m.id == mid)).map fun m => { m with image := Option.some r }) := by
  induction l with
  | nil => rfl
  | cons m t ih =>
    rw [show setImage (m :: t) mid r =
        (if m.id == mid then { m with image := Option.some r } else m) :: setImage t mid r
      from rfl]
    by_cases h : m.id = mid
    · subst h
      simp [List.find?_cons]
    · have hb : (m.id == mid) = false := by simpa using h
      simp [List.find?_cons, hb, ih]

/-- The empty query string filters nothing out. -/
theorem filter_noFilters (l : List Movie) : l.filter (matchesFilters noFilters) = l :=
  List.filter_eq_self.mpr (fun _ _ => rfl)

/-- C1: for an authenticated caller, a list request whose `genres`
filter parses to a genre id returns exactly the movies with that genre
attached, and a list request whose `actors` filter parses to an actor
id returns exactly the movies that actor is attached to (match-any
semantics of the comma-separated parameter, here a single id). -/
theorem C1_filter_by_genres_and_actors (c : Caller) (db : DB) (sg sa : String) (g a : Nat)
    (hc : c ≠ Caller.anon) (hg : parseIds sg = [g]) (ha : parseIds sa = [a]) :
    listMovies c db { title := Option.none, genres := Option.some sg, actors := Option.none } =
      Except.ok ((db.movies.filter (fun m => m.genres.contains g)).map (summarize db)) ∧
    listMovies c db { title := Option.none, genres := Option.none, actors := Option.some sa } =
      Except.ok ((db.movies.filter (fun m => m.actors.contains a)).map (summarize db)) := by
  have e1 : matchesFilters
      { title := Option.none, genres := Option.some sg, actors := Option.none } =
      fun m => m.genres.contains g := by
    funext m
    simp [matchesFilters, matchTitle, matchIds, hg]
  have e2 : matchesFilters
      { title := Option.none, genres := Option.none, actors := Option.some sa } =
      fun m => m.actors.contains a := by
    funext m
    simp [matchesFilters, matchTitle, matchIds, ha]
  rw [listMovies_auth c db _ hc, listMovies_auth c db _ hc, e1, e2]
  exact ⟨rfl, rfl⟩

/-- Witness for C1 on the fixture of the filter tests: genre id 1 keeps
exactly the movie with genre 1, actor id 2 keeps exactly the movie with
actor 2. -/
theorem C1_filter_by_genres_and_actors_witness :
    parseIds "1" = [1] ∧ parseIds "2" = [2] ∧
    (listMovies Caller.user dbFilters
        { title := Option.none, genres := Option.some "1", actors := Option.none } =
      Except.ok ((dbFilters.movies.filter (fun m => m.genres.contains 1)).map
        (summarize dbFilters)) ∧
     listMovies Caller.user dbFilters
        { title := Option.none, genres := Option.none, actors := Option.some "2" } =
      Except.ok ((dbFilters.movies.filter (fun m => m.actors.contains 2)).map
        (summarize dbFilters))) ∧
    ((dbFilters.movies.filter (fun m => m.genres.contains 1)).map (fun m => m.id) = [1] ∧
     (dbFilters.movies.filter (fun m => m.actors.contains 2)).map (fun m => m.id) = [2]) :=
  ⟨by decide, by decide,
   C1_filter_by_genres_and_actors Caller.user dbFilters "1" "2" 1 2
     (by decide) (by decide) (by decide),
   by decide, by decide⟩

/-- C2: for an authenticated caller, a list request with the `title`
filter set to "matrix" returns exactly the movies whose title contains
"Matrix" as a case-insensitive substring; "The Matrix" matches and
"Toy Story" does not. -/
theorem C2_filter_by_title_matrix (c : Caller) (db : DB) (hc : c ≠ Caller.anon) :
    listMovies c db
        { title := Option.some "matrix", genres := Option.none, actors := Option.none } =
      Except.ok ((db.movies.filter (fun m => containsCI m.title "Matrix")).map
        (summarize db)) ∧
    containsCI "The Matrix" "Matrix" = true ∧
    containsCI "Toy Story" "Matrix" = false := by
  have e : matchesFilters
      { title := Option.some "matrix", genres := Option.none, actors := Option.none } =
      fun m => containsCI m.title "Matrix" := by
    funext m
    have hlow : ("Matrix".data.map lowChar) = ("matrix".data.map lowChar) := by decide
    simp [matchesFilters, matchTitle, matchIds, containsCI, hlow]
  rw [listMovies_auth c db _ hc, e]
  exact ⟨rfl, by decide, by decide⟩

/-- Witness for C2 on the fixture of the title-filter test: exactly
"The Matrix" survives the filter. -/
theorem C2_filter_by_title_matrix_witness :
    (listMovies Caller.user dbTitles
        { title := Option.some "matrix", genres := Option.none, actors := Option.none } =
      Except.ok ((dbTitles.movies.filter (fun m => containsCI m.title "Matrix")).map
        (summarize dbTitles)) ∧
     containsCI "The Matrix" "Matrix" = true ∧
     containsCI "Toy Story" "Matrix" = false) ∧
    (dbTitles.movies.filter (fun m => containsCI m.title "Matrix")).map (fun m => m.title) =
      ["The Matrix"] :=
  ⟨C2_filter_by_title_matrix Caller.user dbTitles (by decide), by decide⟩

/-- C4: an unauthenticated GET on the movie list returns Unauthorized
(HTTP 401) and carries no movie data. -/
theorem C4_unauthenticated_list_unauthorized (db : DB) (f : Filters) :
    listMovies Caller.anon db f = Except.error ApiError.unauthorized ∧
    statusOf 200 (listMovies Caller.anon db f) = 401 :=
  ⟨rfl, rfl⟩

/-- C3: an authenticated non-admin POST of a well-formed create payload
to the movie list endpoint returns Forbidden (HTTP 403) and leaves the
stored movie records unchanged. -/
theorem C3_create_forbidden_for_non_admin (db : DB) (p : CreatePayload)
    (h : validPayload db p = true) :
    (createMovie Caller.user db p).1 = Except.error ApiError.forbidden ∧
    statusOf 201 (createMovie Caller.user db p).1 = 403 ∧
    (createMovie Caller.user db p).2 = db :=
  ⟨rfl, rfl, rfl⟩

/-- Witness for C3 at a concrete store and payload. -/
theorem C3_create_forbidden_for_non_admin_witness :
    validPayload
        { genres := [{ id := 1, name := "Sci-Fi" }],
          actors := [{ id := 1, first_name := "John", last_name := "Doe" }],
          movies := [], nextMovieId := 1, files := [] }
        { title := Option.some "New movie", description := Option.some "New description",
          duration := Option.some 120, genres := [1], actors := [1],
          image := Option.none } = true ∧
    ((createMovie Caller.user
        { genres := [{ id := 1, name := "Sci-Fi" }],
          actors := [{ id := 1, first_name := "John", last_name := "Doe" }],
          movies := [], nextMovieId := 1, files := [] }
        { title := Option.some "New movie", description := Option.some "New description",
          duration := Option.some 120, genres := [1], actors := [1],
          image := Option.none }).1 = Except.error ApiError.forbidden ∧
      statusOf 201 (createMovie Caller.user
        { genres := [{ id := 1, name := "Sci-Fi" }],
          actors := [{ id := 1, first_name := "John", last_name := "Doe" }],
          movies := [], nextMovieId := 1, files := [] }
        { title := Option.some "New movie", description := Option.some "New description",
          duration := Option.some 120, genres := [1], actors := [1],
          image := Option.none }).1 = 403 ∧
      (createMovie Caller.user
        { genres := [{ id := 1, name := "Sci-Fi" }],
          actors := [{ id := 1, first_name := "John", last_name := "Doe" }],
          movies := [], nextMovieId := 1, files := [] }
        { title := Option.some "New movie", description := Option.some "New description",
          duration := Option.some 120, genres := [1], actors := [1],
          image := Option.none }).2 =
        { genres := [{ id := 1, name := "Sci-Fi" }],
          actors := [{ id := 1, first_name := "John", last_name := "Doe" }],
          movies := [], nextMovieId := 1, files := [] }) :=
  ⟨by decide, C3_create_forbidden_for_non_admin _ _ (by decide)⟩

/-- C7: posting a payload that does not decode as an image to the
upload-image action of an existing movie without an image returns
BadRequest (HTTP 400) and leaves the store, hence the movie's unset
image, unchanged. -/
theorem C7_upload_bad_image_rejected (db : DB) (mid : Nat) (m : Movie) (f : ImageFile)
    (hm : lookupMovie db mid = Option.some m) (hmi : m.image = Option.none)
    (hf : f.decodable = false) :
    uploadImage Caller.admin db mid f = (Except.error ApiError.badRequest, db) ∧
    statusOf 200 (uploadImage Caller.admin db mid f).1 = 400 ∧
    (lookupMovie (uploadImage Caller.admin db mid f).2 mid).map Movie.image =
      Option.some Option.none := by
  have h1 : uploadImage Caller.admin db mid f = (Except.error ApiError.badRequest, db) := by
    simp [uploadImage, hm, hf]
  refine ⟨h1, ?_, ?_⟩
  · rw [h1]; rfl
  · rw [h1]; simp [hm, hmi]

/-- Witness for C7 at a concrete store, movie and payload. -/
theorem C7_upload_bad_image_rejected_witness :
    lookupMovie
        { genres := [], actors := [],
          movies := [{ id := 1, title := "Sample movie",
                       description := "Sample description", duration := 90,
                       genres := [], actors := [], image := Option.none }],
          nextMovieId := 2, files := [] } 1 =
      Option.some { id := 1, title := "Sample movie",
                    description := "Sample description", duration := 90,
                    genres := [], actors := [], image := Option.none } ∧
    (uploadImage Caller.admin
        { genres := [], actors := [],
          movies := [{ id := 1, title := "Sample movie",
                       description := "Sample description", duration := 90,
                       genres := [], actors := [], image := Option.none }],
          nextMovieId := 2, files := [] } 1 { name := "not image", decodable := false } =
      (Except.error ApiError.badRequest,
        { genres := [], actors := [],
          movies := [{ id := 1, title := "Sample movie",
                       description := "Sample description", duration := 90,
                       genres := [], actors := [], image := Option.none }],
          nextMovieId := 2, files := [] }) ∧
      statusOf 200 (uploadImage Caller.admin
        { genres := [], actors := [],
          movies := [{ id := 1, title := "Sample movie",
                       description := "Sample description", duration := 90,
                       genres := [], actors := [], image := Option.none }],
          nextMovieId := 2, files := [] } 1 { name := "not image", decodable := false }).1 = 400 ∧
      (lookupMovie (uploadImage Caller.admin
        { genres := [], actors := [],
          movies := [{ id := 1, title := "Sample movie",
                       description := "Sample description", duration := 90,
                       genres := [], actors := [], image := Option.none }],
          nextMovieId := 2, files := [] } 1 { name := "not image", decodable := false }).2 1).map
        Movie.image = Option.some Option.none) :=
  ⟨by decide,
   C7_upload_bad_image_rejected _ 1
     { id := 1, title := "Sample movie", description := "Sample description",
       duration := 90, genres := [], actors := [], image := Option.none }
     { name := "not image", decodable := false } (by decide) (by decide) (by decide)⟩

/-- Any authenticated caller gets the lookup result from the retrieve
endpoint. -/
theorem retrieveMovie_auth (c : Caller) (db : DB) (mid : Nat) (hc : c ≠ Caller.anon) :
    retrieveMovie c db mid =
      (match lookupMovie db mid with
       | Option.none => Except.error ApiError.notFound
       | Option.some m => Except.ok (detailOf db m)) := by
  cases c with
  | anon => exact absurd rfl hc
  | user => rfl
  | admin => rfl

/-- C9: for an authenticated caller, retrieving an existing movie id
returns 200 with the full detail, whose nested genre objects carry the
genre's name and whose nested actor objects carry
first_name ++ " " ++ last_name as full_name; retrieving an id with no
movie fails with NotFound. -/
theorem C9_retrieve_detail_or_not_found (c : Caller) (db : DB) (mid : Nat)
    (hc : c ≠ Caller.anon) :
    (∀ m : Movie, lookupMovie db mid = Option.some m →
      retrieveMovie c db mid = Except.ok (detailOf db m) ∧
      statusOf 200 (retrieveMovie c db mid) = 200 ∧
      (detailOf db m).genres =
        (m.genres.filterMap (lookupGenre db)).map (fun g => { id := g.id, name := g.name }) ∧
      (detailOf db m).actors =
        (m.actors.filterMap (lookupActor db)).map
          (fun a => { id := a.id, full_name := a.first_name ++ " " ++ a.last_name })) ∧
    (lookupMovie db mid = Option.none →
      retrieveMovie c db mid = Except.error ApiError.notFound ∧
      statusOf 200 (retrieveMovie c db mid) = 404) := by
  have hr := retrieveMovie_auth c db mid hc
  constructor
  · intro m hm
    refine ⟨?_, ?_, rfl, rfl⟩ <;> simp [hr, hm, statusOf]
  · intro hn
    refine ⟨?_, ?_⟩ <;> simp [hr, hn, statusOf, ApiError.statusCode]

/-- Witness for C9 on the fixture of the retrieve test: the detail of
the stored movie carries the genre name and the actor's derived full
name, and a missing id answers NotFound. -/
theorem C9_retrieve_detail_or_not_found_witness :
    retrieveMovie Caller.user dbDetail 1 = Except.ok (detailOf dbDetail matrixMovie) ∧
    (detailOf dbDetail matrixMovie).genres = [{ id := 1, name := "Horror" }] ∧
    (detailOf dbDetail matrixMovie).actors = [{ id := 1, full_name := "Keanu Reeves" }] ∧
    retrieveMovie Caller.user dbDetail 2 = Except.error ApiError.notFound :=
  ⟨((C9_retrieve_detail_or_not_found Caller.user dbDetail 1 (by decide)).1
      matrixMovie (by decide)).1,
   by decide, by decide,
   ((C9_retrieve_detail_or_not_found Caller.user dbDetail 2 (by decide)).2 (by decide)).1⟩

/-- C10: a movie holding only title, description and a positive
duration, with no genres, actors or image, satisfies the model
invariants, and the unfiltered list returns its summary alongside the
previously stored movies, counting it. -/
theorem C10_bare_movie_valid_and_listed (db db2 : DB) (id0 : Nat) (t d : String)
    (dur : Int) (m0 : Movie) (hdur : 0 < dur)
    (hm0 : m0 = { id := id0, title := t, description := d, duration := dur,
                  genres := [], actors := [], image := Option.none })
    (hdb2 : db2 = { db with movies := db.movies ++ [m0] }) :
    movieValid db2 m0 = true ∧
    listMovies Caller.user db2 noFilters = Except.ok (db2.movies.map (summarize db2)) ∧
    summarize db2 m0 ∈ db2.movies.map (summarize db2) ∧
    (db2.movies.map (summarize db2)).length = db.movies.length + 1 := by
  subst hm0
  subst hdb2
  refine ⟨?_, ?_, ?_, ?_⟩
  · simp [movieValid, hdur]
  · rw [listMovies_auth Caller.user _ noFilters (by decide), filter_noFilters]
  · exact List.mem_map_of_mem _ (by simp)
  · simp

/-- Witness for C10: the bare sample movie added to the filter-test
store is valid and listed, and the count grows by one. -/
theorem C10_bare_movie_valid_and_listed_witness :
    (0 : Int) < 90 ∧
    (movieValid { dbFilters with movies := dbFilters.movies ++ [bareMovie] } bareMovie = true ∧
     listMovies Caller.user { dbFilters with movies := dbFilters.movies ++ [bareMovie] }
         noFilters =
       Except.ok (({ dbFilters with movies := dbFilters.movies ++ [bareMovie] } : DB).movies.map
         (summarize { dbFilters with movies := dbFilters.movies ++ [bareMovie] })) ∧
     summarize { dbFilters with movies := dbFilters.movies ++ [bareMovie] } bareMovie ∈
       ({ dbFilters with movies := dbFilters.movies ++ [bareMovie] } : DB).movies.map
         (summarize { dbFilters with movies := dbFilters.movies ++ [bareMovie] }) ∧
     (({ dbFilters with movies := dbFilters.movies ++ [bareMovie] } : DB).movies.map
         (summarize { dbFilters with movies := dbFilters.movies ++ [bareMovie] })).length =
       dbFilters.movies.length + 1) :=
  ⟨by decide,
   C10_bare_movie_valid_and_listed dbFilters _ 3 "Sample movie" "Sample description"
     90 bareMovie (by decide) rfl rfl⟩

/-- C5: an admin POST whose payload carries a title, a description, a
positive duration, two existing genre ids and two existing actor ids
returns 201 Created and appends exactly one movie whose title equals
the payload title, with exactly those two genre associations and
exactly those two actor associations. -/
theorem C5_admin_create_persists_associations (db : DB) (t d : String) (dur : Int)
    (g1 g2 a1 a2 : Nat) (hdur : 0 < dur)
    (hg1 : (lookupGenre db g1).isSome = true) (hg2 : (lookupGenre db g2).isSome = true)
    (ha1 : (lookupActor db a1).isSome = true) (ha2 : (lookupActor db a2).isSome = true) :
    createMovie Caller.admin db
        { title := Option.some t, description := Option.some d,
          duration := Option.some dur, genres := [g1, g2], actors := [a1, a2],
          image := Option.none } =
      (Except.ok (detailOf db
          { id := db.nextMovieId, title := t, description := d, duration := dur,
            genres := [g1, g2], actors := [a1, a2], image := Option.none }),
       { db with
           movies := db.movies ++
             [{ id := db.nextMovieId, title := t, description := d, duration := dur,
                genres := [g1, g2], actors := [a1, a2], image := Option.none }],
           nextMovieId := db.nextMovieId + 1 }) ∧
    statusOf 201 (createMovie Caller.admin db
        { title := Option.some t, description := Option.some d,
          duration := Option.some dur, genres := [g1, g2], actors := [a1, a2],
          image := Option.none }).1 = 201 ∧
    ({ id := db.nextMovieId, title := t, description := d, duration := dur,
       genres := [g1, g2], actors := [a1, a2], image := Option.none } : Movie).title = t ∧
    ({ id := db.nextMovieId, title := t, description := d, duration := dur,
       genres := [g1, g2], actors := [a1, a2], image := Option.none } : Movie).genres.length = 2 ∧
    ({ id := db.nextMovieId, title := t, description := d, duration := dur,
       genres := [g1, g2], actors := [a1, a2], image := Option.none } : Movie).actors.length = 2 := by
  have h : createMovie Caller.admin db
      { title := Option.some t, description := Option.some d,
        duration := Option.some dur, genres := [g1, g2], actors := [a1, a2],
        image := Option.none } =
      (Except.ok (detailOf db
          { id := db.nextMovieId, title := t, description := d, duration := dur,
            genres := [g1, g2], actors := [a1, a2], image := Option.none }),
       { db with
           movies := db.movies ++
             [{ id := db.nextMovieId, title := t, description := d, duration := dur,
                genres := [g1, g2], actors := [a1, a2], image := Option.none }],
           nextMovieId := db.nextMovieId + 1 }) := by
    simp [createMovie, hdur, hg1, hg2, ha1, ha2]
  refine ⟨h, ?_, rfl, rfl, rfl⟩
  rw [h]
  rfl

/-- Witness for C5 on the fixture of the admin create test. -/
theorem C5_admin_create_persists_associations_witness :
    (0 : Int) < 120 ∧ (lookupGenre dbCreate 1).isSome = true ∧
    (lookupGenre dbCreate 2).isSome = true ∧ (lookupActor dbCreate 1).isSome = true ∧
    (lookupActor dbCreate 2).isSome = true ∧
    (createMovie Caller.admin dbCreate
        { title := Option.some "New movie", description := Option.some "New description",
          duration := Option.some 120, genres := [1, 2], actors := [1, 2],
          image := Option.none } =
      (Except.ok (detailOf dbCreate
          { id := dbCreate.nextMovieId, title := "New movie",
            description := "New description", duration := 120,
            genres := [1, 2], actors := [1, 2], image := Option.none }),
       { dbCreate with
           movies := dbCreate.movies ++
             [{ id := dbCreate.nextMovieId, title := "New movie",
                description := "New description", duration := 120,
                genres := [1, 2], actors := [1, 2], image := Option.none }],
           nextMovieId := dbCreate.nextMovieId + 1 }) ∧
      statusOf 201 (createMovie Caller.admin dbCreate
        { title := Option.some "New movie", description := Option.some "New description",
          duration := Option.some 120, genres := [1, 2], actors := [1, 2],
          image := Option.none }).1 = 201 ∧
      ({ id := dbCreate.nextMovieId, title := "New movie", description := "New description",
         duration := 120, genres := [1, 2], actors := [1, 2],
         image := Option.none } : Movie).title = "New movie" ∧
      ({ id := dbCreate.nextMovieId, title := "New movie", description := "New description",
         duration := 120, genres := [1, 2], actors := [1, 2],
         image := Option.none } : Movie).genres.length = 2 ∧
      ({ id := dbCreate.nextMovieId, title := "New movie", description := "New description",
         duration := 120, genres := [1, 2], actors := [1, 2],
         image := Option.none } : Movie).actors.length = 2) :=
  ⟨by decide, by decide, by decide, by decide, by decide,
   C5_admin_create_persists_associations dbCreate "New movie" "New description" 120
     1 2 1 2 (by decide) (by decide) (by decide) (by decide) (by decide)⟩

/-- C8: an admin POST of a decodable image file to the upload-image
action of an existing movie returns 200 with a detail carrying the
image reference, stores the file, and associates the stored reference
with that movie record. -/
theorem C8_upload_image_stores_and_associates (db db2 : DB) (mid : Nat) (m : Movie)
    (f : ImageFile) (r : String)
    (hm : lookupMovie db mid = Option.some m) (hf : f.decodable = true)
    (hr : r = storedRef mid f)
    (hdb2 : db2 = { db with movies := setImage db.movies mid r, files := db.files ++ [r] }) :
    uploadImage Caller.admin db mid f =
      (Except.ok (detailOf db2 { m with image := Option.some r }), db2) ∧
    statusOf 200 (uploadImage Caller.admin db mid f).1 = 200 ∧
    (detailOf db2 { m with image := Option.some r }).image = Option.some r ∧
    r ∈ db2.files ∧
    lookupMovie db2 mid = Option.some { m with image := Option.some r } := by
  have h : uploadImage Caller.admin db mid f =
      (Except.ok (detailOf db2 { m with image := Option.some r }), db2) := by
    subst hr
    subst hdb2
    simp [uploadImage, hm, hf]
  refine ⟨h, ?_, rfl, ?_, ?_⟩
  · rw [h]
    rfl
  · rw [hdb2]
    simp
  · rw [hdb2]
    show (setImage db.movies mid r).find? (fun x => x.id == mid) =
      Option.some { m with image := Option.some r }
    rw [find?_setImage]
    rw [show db.movies.find? (fun x => x.id == mid) = Option.some m from hm]
    rfl

/-- Witness for C8 on the upload fixture: the sample JPEG lands on the
sample movie. -/
theorem C8_upload_image_stores_and_associates_witness :
    lookupMovie dbUpload 1 = Option.some sampleMovie ∧ sampleJpeg.decodable = true ∧
    (uploadImage Caller.admin dbUpload 1 sampleJpeg =
      (Except.ok (detailOf dbUploaded
          { sampleMovie with image := Option.some (storedRef 1 sampleJpeg) }), dbUploaded) ∧
     statusOf 200 (uploadImage Caller.admin dbUpload 1 sampleJpeg).1 = 200 ∧
     (detailOf dbUploaded
         { sampleMovie with image := Option.some (storedRef 1 sampleJpeg) }).image =
       Option.some (storedRef 1 sampleJpeg) ∧
     storedRef 1 sampleJpeg ∈ dbUploaded.files ∧
     lookupMovie dbUploaded 1 =
       Option.some { sampleMovie with image := Option.some (storedRef 1 sampleJpeg) }) :=
  ⟨by decide, rfl,
   C8_upload_image_stores_and_associates dbUpload dbUploaded 1 sampleMovie sampleJpeg
     (storedRef 1 sampleJpeg) (by decide) rfl rfl rfl⟩

/-- C6: an admin create request carrying an `image` part alongside the
required fields succeeds and ignores the part: the created movie has no
image; the subsequent dedicated upload on that movie succeeds, after
which the image reference appears in the movie's detail response and in
its list-response summary. -/
theorem C6_create_ignores_image_then_upload_shows (db db1 db2 : DB) (t d : String)
    (dur : Int) (gids aids : List Nat) (f : ImageFile) (m0 : Movie) (r : String)
    (hdur : 0 < dur)
    (hg : gids.all (fun g => (lookupGenre db g).isSome) = true)
    (ha : aids.all (fun a => (lookupActor db a).isSome) = true)
    (hf : f.decodable = true)
    (hfresh : lookupMovie db db.nextMovieId = Option.none)
    (hm0 : m0 = { id := db.nextMovieId, title := t, description := d, duration := dur,
                  genres := gids, actors := aids, image := Option.none })
    (hdb1 : db1 = { db with
        movies := db.movies ++ [m0], nextMovieId := db.nextMovieId + 1 })
    (hr : r = storedRef db.nextMovieId f)
    (hdb2 : db2 = { db1 with
        movies := setImage db1.movies db.nextMovieId r, files := db1.files ++ [r] }) :
    createMovie Caller.admin db
        { title := Option.some t, description := Option.some d,
          duration := Option.some dur, genres := gids, actors := aids,
          image := Option.some f } = (Except.ok (detailOf db m0), db1) ∧
    m0.image = Option.none ∧
    lookupMovie db1 db.nextMovieId = Option.some m0 ∧
    uploadImage Caller.admin db1 db.nextMovieId f =
      (Except.ok (detailOf db2 { m0 with image := Option.some r }), db2) ∧
    retrieveMovie Caller.user db2 db.nextMovieId =
      Except.ok (detailOf db2 { m0 with image := Option.some r }) ∧
    (detailOf db2 { m0 with image := Option.some r }).image = Option.some r ∧
    listMovies Caller.user db2 noFilters = Except.ok (db2.movies.map (summarize db2)) ∧
    summarize db2 { m0 with image := Option.some r } ∈ db2.movies.map (summarize db2) ∧
    (summarize db2 { m0 with image := Option.some r }).image = Option.some r := by
  subst hm0
  subst hdb1
  subst hr
  subst hdb2
  have hfresh' : db.movies.find? (fun m => m.id == db.nextMovieId) = Option.none := hfresh
  have h1 : createMovie Caller.admin db
      { title := Option.some t, description := Option.some d,
        duration := Option.some dur, genres := gids, actors := aids,
        image := Option.some f } =
      (Except.ok (detailOf db
          { id := db.nextMovieId, title := t, description := d, duration := dur,
            genres := gids, actors := aids, image := Option.none }),
       { db with
           movies := db.movies ++
             [{ id := db.nextMovieId, title := t, description := d, duration := dur,
                genres := gids, actors := aids, image := Option.none }],
           nextMovieId := db.nextMovieId + 1 }) := by
    simp [createMovie, hdur, hg, ha]
  have h3 : (db.movies ++
      [({ id := db.nextMovieId, title := t, description := d, duration := dur,
          genres := gids, actors := aids, image := Option.none } : Movie)]).find?
        (fun m => m.id == db.nextMovieId) =
      Option.some { id := db.nextMovieId, title := t, description := d, duration := dur,
                    genres := gids, actors := aids, image := Option.none } := by
    rw [find?_append_of_none _ hfresh']
    simp [List.find?_cons]
  have h4 : uploadImage Caller.admin
      { db with
          movies := db.movies ++
            [{ id := db.nextMovieId, title := t, description := d, duration := dur,
               genres := gids, actors := aids, image := Option.none }],
          nextMovieId := db.nextMovieId + 1 }
      db.nextMovieId f =
      (Except.ok (detailOf
          { db with
              movies := setImage
                (db.movies ++
                  [{ id := db.nextMovieId, title := t, description := d, duration := dur,
                     genres := gids, actors := aids, image := Option.none }])
                db.nextMovieId (storedRef db.nextMovieId f),
              nextMovieId := db.nextMovieId + 1,
              files := db.files ++ [storedRef db.nextMovieId f] }
          { id := db.nextMovieId, title := t, description := d, duration := dur,
            genres := gids, actors := aids,
            image := Option.some (storedRef db.nextMovieId f) }),
       { db with
           movies := setImage
             (db.movies ++
               [{ id := db.nextMovieId, title := t, description := d, duration := dur,
                  genres := gids, actors := aids, image := Option.none }])
             db.nextMovieId (storedRef db.nextMovieId f),
           nextMovieId := db.nextMovieId + 1,
           files := db.files ++ [storedRef db.nextMovieId f] }) := by
    simp [uploadImage, lookupMovie, h3, hf]
  have hl2 : (setImage
      (db.movies ++
        [({ id := db.nextMovieId, title := t, description := d, duration := dur,
            genres := gids, actors := aids, image := Option.none } : Movie)])
      db.nextMovieId (storedRef db.nextMovieId f)).find?
        (fun x => x.id == db.nextMovieId) =
      Option.some { id := db.nextMovieId, title := t, description := d, duration := dur,
                    genres := gids, actors := aids,
                    image := Option.some (storedRef db.nextMovieId f) } := by
    rw [find?_setImage, h3]
    rfl
  refine ⟨h1, rfl, h3, h4, ?_, rfl, ?_, ?_, rfl⟩
  · rw [retrieveMovie_auth Caller.user _ _ (by decide)]
    show (match (setImage
        (db.movies ++
          [({ id := db.nextMovieId, title := t, description := d, duration := dur,
              genres := gids, actors := aids, image := Option.none } : Movie)])
        db.nextMovieId (storedRef db.nextMovieId f)).find?
          (fun x => x.id == db.nextMovieId) with
      | Option.none => Except.error ApiError.notFound
      | Option.some m => Except.ok (detailOf _ m)) = _
    rw [hl2]
  · rw [listMovies_auth Caller.user _ noFilters (by decide), filter_noFilters]
  · exact List.mem_map_of_mem _ (List.mem_map.mpr ⟨_, List.mem_append_right _ (List.mem_singleton_self _), by simp⟩)

/-- Witness for C6 on the create fixture: the sample JPEG posted with
the create is ignored, the follow-up upload attaches it, and the
reference shows in detail and list output. -/
theorem C6_create_ignores_image_then_upload_shows_witness :
    createMovie Caller.admin dbCreate
        { title := Option.some "Title", description := Option.some "Description",
          duration := Option.some 90, genres := [1], actors := [1],
          image := Option.some sampleJpeg } =
      (Except.ok (detailOf dbCreate createdMovie), dbAfterCreate) ∧
    createdMovie.image = Option.none ∧
    lookupMovie dbAfterCreate dbCreate.nextMovieId = Option.some createdMovie ∧
    uploadImage Caller.admin dbAfterCreate dbCreate.nextMovieId sampleJpeg =
      (Except.ok (detailOf dbAfterUpload
          { createdMovie with image := Option.some uploadRef }), dbAfterUpload) ∧
    retrieveMovie Caller.user dbAfterUpload dbCreate.nextMovieId =
      Except.ok (detailOf dbAfterUpload { createdMovie with image := Option.some uploadRef }) ∧
    (detailOf dbAfterUpload { createdMovie with image := Option.some uploadRef }).image =
      Option.some uploadRef ∧
    listMovies Caller.user dbAfterUpload noFilters =
      Except.ok (dbAfterUpload.movies.map (summarize dbAfterUpload)) ∧
    summarize dbAfterUpload { createdMovie with image := Option.some uploadRef } ∈
      dbAfterUpload.movies.map (summarize dbAfterUpload) ∧
    (summarize dbAfterUpload { createdMovie with image := Option.some uploadRef }).image =
      Option.some uploadRef :=
  C6_create_ignores_image_then_upload_shows dbCreate dbAfterCreate dbAfterUpload
    "Title" "Description" 90 [1] [1] sampleJpeg createdMovie uploadRef
    (by decide) (by decide) (by decide) rfl (by decide) rfl rfl rfl rfl

end Cinema
